import Mathlib

/-!
LMIC-node board support files: pin descriptors and `boardInit`

Shallow embedding of the two board support files

* `src/boards/heltec_wireless_stick_lite.h`
* `src/boards/teensylc.h`

Each file declares a radio pin map (`lmic_pins`), optional global objects
(`serial`, `led`, `display`) guarded by build flags, and the function
`boardInit(InitType)`.  The build flags (`#ifdef`) are an explicit record
`BuildFlags`; the platform objects touched by `boardInit` (`Wire`, `SPI`,
`Serial`) are an explicit state `Platform` that also records every call made
on it, so that "which calls were made, with which arguments" is observable.
-/

namespace LMICNode

/-! ## Shared types (declared in `LMIC-node.h` and the libraries) -/

/-- Phase selector of `boardInit`: `enum class InitType { Hardware, PostInitSerial }`. -/
inductive InitType
  | Hardware
  | PostInitSerial
deriving DecidableEq, Repr

/-- The preprocessor symbols tested with `#ifdef` in the board files. -/
structure BuildFlags where
  USE_SERIAL : Bool
  USE_LED : Bool
  USE_DISPLAY : Bool
  MCCI_LMIC : Bool
deriving DecidableEq, Repr

/-- Modelled from the spec: the symbol `LMIC_UNUSED_PIN` is declared by the LMIC
library, not by the board files; the spec describes it as "a sentinel
indicating absence, never a concrete pin number".  A pin initialiser, as it is
written in a pin map, is therefore either that sentinel or a literal pin
number. -/
inductive PinValue
  | LMIC_UNUSED_PIN
  | pin (n : Nat)
deriving DecidableEq, Repr

/-- The literal pin number of an initialiser, when it has one. -/
def PinValue.concrete? : PinValue → Option Nat
  | .LMIC_UNUSED_PIN => none
  | .pin n => some n

/-- The three members present only under `#ifdef MCCI_LMIC`. -/
structure McciFields where
  rxtx_rx_active : Nat
  rssi_cal : Nat
  spi_freq : Nat
deriving DecidableEq, Repr

/-- The radio pin map `lmic_pinmap`; `dio` is the three-element array. -/
structure lmic_pinmap where
  nss : PinValue
  rxtx : PinValue
  rst : PinValue
  dio : List PinValue
  mcci : Option McciFields
deriving DecidableEq, Repr

/-- Literal pin numbers of the pin map, in field order (nss, rxtx, rst, dio0..2);
fields equal to `LMIC_UNUSED_PIN` contribute nothing. -/
def lmic_pinmap.concretePins (m : lmic_pinmap) : List Nat :=
  ([m.nss, m.rxtx, m.rst] ++ m.dio).filterMap PinValue.concrete?

/-- The enumeration `EasyLed::ActiveLevel`. -/
inductive ActiveLevel
  | Low
  | High
deriving DecidableEq, Repr

/-- Constructor arguments of an `EasyLed` object. -/
structure EasyLed where
  pin : Nat
  activeLevel : ActiveLevel
deriving DecidableEq, Repr

/-- Constructor arguments of the `U8X8_SSD1306_128X64_NONAME_HW_I2C` object;
`reset = none` is `U8X8_PIN_NONE`. -/
structure U8X8_SSD1306_128X64_NONAME_HW_I2C where
  reset : Option Nat
  clock : Nat
  data : Nat
deriving DecidableEq, Repr

/-- The platform object a `serial` reference is bound to. -/
inductive SerialObject
  | Serial
deriving DecidableEq, Repr

/-! ## Platform state touched by `boardInit` -/

/-- A call a recording stub of the platform and driver layer observes: a
method of one of the objects `Wire`, `SPI`, `Serial`, or the constructor of an
indicator (`EasyLed`) or display (`U8X8_SSD1306_128X64_NONAME_HW_I2C`) object,
with its arguments. -/
inductive PlatformCall
  | Wire_begin (sda scl : Nat)
  | SPI_setSCK (pin : Nat)
  | Serial_write (text : String)
  | Serial_read
  | EasyLed_construct (args : EasyLed)
  | U8X8_construct (args : U8X8_SSD1306_128X64_NONAME_HW_I2C)
deriving DecidableEq, Repr

/-- Process-wide hardware state: the pins the two-wire bus and the SPI clock
are assigned to, what has been written to the host channel, the status the
two-wire bus layer answers to `begin`, and the log of all calls made. -/
structure Platform where
  wireSda : Nat
  wireScl : Nat
  spiSck : Nat
  serialOut : List String
  wireBeginStatus : Bool
  calls : List PlatformCall
deriving DecidableEq, Repr

/-- The call `Wire.begin(sda, scl)`: the pins are remembered; the status is returned. -/
def Wire_begin (sda scl : Nat) (p : Platform) : Bool × Platform :=
  (p.wireBeginStatus,
    { p with wireSda := sda, wireScl := scl, calls := p.calls ++ [.Wire_begin sda scl] })

/-- The call `SPI.setSCK(pin)`: the clock line is assigned to `pin`; returns nothing. -/
def SPI_setSCK (pin : Nat) (p : Platform) : Platform :=
  { p with spiSck := pin, calls := p.calls ++ [.SPI_setSCK pin] }

/-- A call that only configures a bus (no traffic on the host channel). -/
def PlatformCall.isBusConfiguration : PlatformCall → Bool
  | .Wire_begin _ _ => true
  | .SPI_setSCK _ => true
  | .Serial_write _ => false
  | .Serial_read => false
  | .EasyLed_construct _ => false
  | .U8X8_construct _ => false

/-- A call that constructs an indicator or a display object. -/
def PlatformCall.isPeripheralConstruction : PlatformCall → Bool
  | .EasyLed_construct _ => true
  | .U8X8_construct _ => true
  | _ => false

/-- A call that reads or writes the host communication channel. -/
def PlatformCall.usesHostChannel : PlatformCall → Bool
  | .Serial_write _ => true
  | .Serial_read => true
  | _ => false

/-- The calls `q` has logged beyond those already logged in `p`. -/
def callsSince (p q : Platform) : List PlatformCall :=
  q.calls.drop p.calls.length

/-! ## `heltec_wireless_stick_lite.h` -/

namespace heltec_wireless_stick_lite

def DEVICEID_DEFAULT : String := "wireless-sticklt"

/-- The symbol `WAITFOR_SERIAL_SECONDS_DEFAULT` is commented out in this file. -/
def WAITFOR_SERIAL_SECONDS_DEFAULT : Option Int := none

/-! Pin identifiers of the Board Support Package, as tabulated in the file
header (lines 32-56). -/

def LED_BUILTIN : Nat := 25
def SDA : Nat := 21
def SCL : Nat := 22
def Vext : Nat := 21
def MOSI : Nat := 27
def MISO : Nat := 19
def SCK : Nat := 5

/-- The definition `const lmic_pinmap lmic_pins = { ... }` (lines 90-101). -/
def lmic_pins (f : BuildFlags) : lmic_pinmap :=
  { nss := .pin 18
    rxtx := .LMIC_UNUSED_PIN
    rst := .pin 14
    dio := [.pin 26, .pin 35, .pin 34]
    mcci := if f.MCCI_LMIC then
        some { rxtx_rx_active := 0, rssi_cal := 10, spi_freq := 8000000 }
      else none }

/-- The definition `HardwareSerial& serial = Serial;` under `USE_SERIAL`. -/
def serial (f : BuildFlags) : Option SerialObject :=
  if f.USE_SERIAL then some .Serial else none

/-- The definition `EasyLed led(25, EasyLed::ActiveLevel::High);` under `USE_LED`. -/
def led (f : BuildFlags) : Option EasyLed :=
  if f.USE_LED then some { pin := 25, activeLevel := .High } else none

/-- The definition `display(U8X8_PIN_NONE, 15, 4)` under `USE_DISPLAY`. -/
def display (f : BuildFlags) : Option U8X8_SSD1306_128X64_NONAME_HW_I2C :=
  if f.USE_DISPLAY then some { reset := none, clock := 15, data := 4 } else none

/-- The function `bool boardInit(InitType initType)` (lines 117-145).  The value returned by
`Wire.begin` is discarded, as in the source. -/
def boardInit (f : BuildFlags) (initType : InitType) (p : Platform) : Bool × Platform :=
  let success := true
  match initType with
  | .Hardware =>
    if f.USE_DISPLAY then
      let (_, p1) := Wire_begin 4 15 p
      (success, p1)
    else
      (success, p)
  | .PostInitSerial => (success, p)

/-- Platform state at reset: buses on the pins the BSP assigns by default. -/
def resetState (wireBeginStatus : Bool) : Platform :=
  { wireSda := SDA, wireScl := SCL, spiSck := SCK, serialOut := [],
    wireBeginStatus := wireBeginStatus, calls := [] }

end heltec_wireless_stick_lite

/-! ## `teensylc.h` -/

namespace teensylc

def DEVICEID_DEFAULT : String := "teensylc"

/-- The line `#define WAITFOR_SERIAL_SECONDS_DEFAULT 10`. -/
def WAITFOR_SERIAL_SECONDS_DEFAULT : Option Int := some 10

/-! Pin identifiers of the Board Support Package, as tabulated in the file
header (lines 25-45).  `SCK_default` is the pin the clock is on before
`SPI.setSCK(14)` ("has to be moved from 13 to 14"). -/

def LED_BUILTIN : Nat := 13
def SDA : Nat := 18
def SCL : Nat := 19
def MOSI : Nat := 11
def MISO : Nat := 12
def SCK_default : Nat := 13

/-- The definition `const lmic_pinmap lmic_pins = { ... }` (lines 80-91). -/
def lmic_pins (f : BuildFlags) : lmic_pinmap :=
  { nss := .pin 10
    rxtx := .LMIC_UNUSED_PIN
    rst := .pin 9
    dio := [.pin 8, .pin 7, .LMIC_UNUSED_PIN]
    mcci := if f.MCCI_LMIC then
        some { rxtx_rx_active := 0, rssi_cal := 10, spi_freq := 8000000 }
      else none }

/-- The definition `usb_serial_class& serial = Serial;` under `USE_SERIAL`. -/
def serial (f : BuildFlags) : Option SerialObject :=
  if f.USE_SERIAL then some .Serial else none

/-- The definition `EasyLed led(LED_BUILTIN, EasyLed::ActiveLevel::High);` under `USE_LED`. -/
def led (f : BuildFlags) : Option EasyLed :=
  if f.USE_LED then some { pin := LED_BUILTIN, activeLevel := .High } else none

/-- The definition `display(U8X8_PIN_NONE, SCL, SDA)` under `USE_DISPLAY`. -/
def display (f : BuildFlags) : Option U8X8_SSD1306_128X64_NONAME_HW_I2C :=
  if f.USE_DISPLAY then some { reset := none, clock := SCL, data := SDA } else none

/-- The function `bool boardInit(InitType initType)` (lines 107-130).  No `#ifdef` inside:
the flags do not influence the body. -/
def boardInit (_f : BuildFlags) (initType : InitType) (p : Platform) : Bool × Platform :=
  let success := true
  match initType with
  | .Hardware => (success, SPI_setSCK 14 p)
  | .PostInitSerial => (success, p)

/-- Platform state at reset: buses on the pins the BSP assigns by default. -/
def resetState (wireBeginStatus : Bool) : Platform :=
  { wireSda := SDA, wireScl := SCL, spiSck := SCK_default, serialOut := [],
    wireBeginStatus := wireBeginStatus, calls := [] }

end teensylc

/-! ## Both boards behind one selector -/

/-- The board files under verification. -/
inductive Board
  | heltec_wireless_stick_lite
  | teensylc
deriving DecidableEq, Repr

def Board.boardInit : Board → BuildFlags → InitType → Platform → Bool × Platform
  | .heltec_wireless_stick_lite => heltec_wireless_stick_lite.boardInit
  | .teensylc => teensylc.boardInit

def Board.lmic_pins : Board → BuildFlags → lmic_pinmap
  | .heltec_wireless_stick_lite => heltec_wireless_stick_lite.lmic_pins
  | .teensylc => teensylc.lmic_pins

def Board.led : Board → BuildFlags → Option EasyLed
  | .heltec_wireless_stick_lite => heltec_wireless_stick_lite.led
  | .teensylc => teensylc.led

def Board.display : Board → BuildFlags → Option U8X8_SSD1306_128X64_NONAME_HW_I2C
  | .heltec_wireless_stick_lite => heltec_wireless_stick_lite.display
  | .teensylc => teensylc.display

def Board.serial : Board → BuildFlags → Option SerialObject
  | .heltec_wireless_stick_lite => heltec_wireless_stick_lite.serial
  | .teensylc => teensylc.serial

def Board.resetState : Board → Bool → Platform
  | .heltec_wireless_stick_lite => heltec_wireless_stick_lite.resetState
  | .teensylc => teensylc.resetState

/-- Platform state once `boardInit(Hardware)` has run from reset (its second
component); `wireBeginStatus` is what the two-wire layer would answer. -/
def Board.afterHardware (b : Board) (f : BuildFlags) (wireBeginStatus : Bool) : Platform :=
  (b.boardInit f .Hardware (b.resetState wireBeginStatus)).2

/-! ## Pin ownership -/

/-- The data and output lines of the SPI bus (fixed by the BSP). -/
def Board.spiDataLines : Board → List Nat
  | .heltec_wireless_stick_lite =>
      [heltec_wireless_stick_lite.MOSI, heltec_wireless_stick_lite.MISO]
  | .teensylc => [teensylc.MOSI, teensylc.MISO]

/-- Pin functions wired on the board that are not a field of any descriptor
object: the `Vext` power-enable line of the Heltec. -/
def Board.otherFunctions : Board → List Nat
  | .heltec_wireless_stick_lite => [heltec_wireless_stick_lite.Vext]
  | .teensylc => []

/-- The contention recorded in the file header: GPIO21 on the Heltec (Vext and
BSP `SDA`), pin 13 on the Teensy (LED and BSP `SCK`). -/
def Board.documentedContention : Board → Nat
  | .heltec_wireless_stick_lite => 21
  | .teensylc => 13

/-- Every pin a declared descriptor field or a bus line lays claim to in
platform state `p`: the literal radio pins, the indicator pin (when `led` is
declared), the two-wire bus lines, and the SPI lines.  The display is a user
of the two-wire bus and is tied to these lines by `Board.displayOnWire`. -/
def Board.claimedPins (b : Board) (f : BuildFlags) (p : Platform) : List Nat :=
  (b.lmic_pins f).concretePins
    ++ (b.led f).toList.map EasyLed.pin
    ++ [p.wireSda, p.wireScl]
    ++ b.spiDataLines ++ [p.spiSck]

/-- The display object, when declared, names exactly the lines the two-wire
bus is assigned to in `p`. -/
def Board.displayOnWire (b : Board) (f : BuildFlags) (p : Platform) : Bool :=
  match b.display f with
  | none => true
  | some d => d.data == p.wireSda && d.clock == p.wireScl

/-- Pins that occur more than once in a list of claims. -/
def sharedPins (l : List Nat) : List Nat :=
  (l.filter (fun x => decide (1 < l.count x))).dedup

/-! ## Order of execution at start-up -/

/-- Observable steps of start-up: a call on the platform and driver layer, the
entry into `boardInit` for a phase, its return with the success indicator, and
the bring-up of the communication channel by the caller. -/
inductive Event
  | call (c : PlatformCall)
  | enter (t : InitType)
  | leave (t : InitType) (success : Bool)
  | initSerial
deriving DecidableEq, Repr

/-- The objects `led` and `display` are definitions with a constructor at
namespace scope (Heltec lines 107-114, Teensy lines 97-104): their constructors
run, in order of declaration and with the arguments written there, before any
function of the translation unit is entered.  (`serial` is a reference bound
to the existing `Serial` object and `lmic_pins` is a constant aggregate:
neither runs a constructor.) -/
def Board.staticInitialization (b : Board) (f : BuildFlags) (p : Platform) : Platform :=
  { p with calls := p.calls ++ ((b.led f).toList.map PlatformCall.EasyLed_construct
                      ++ (b.display f).toList.map PlatformCall.U8X8_construct) }

/-- What the caller of the board file (the outer `setup()`) does with it: call
`boardInit` with a phase, or bring up the communication channel. -/
inductive CallerStep
  | boardInit (t : InitType)
  | initSerial
deriving DecidableEq, Repr

/-- Executes the steps of the caller in order from platform state `p`.  A
`boardInit` step runs the board function on the current state and records its
entry, every call it logged on the platform, and its return value; the state
it leaves is the state the next step starts from. -/
def Board.run (b : Board) (f : BuildFlags) : List CallerStep → Platform → List Event
  | [], _ => []
  | .boardInit t :: rest, p =>
      [Event.enter t]
        ++ (callsSince p (b.boardInit f t p).2).map Event.call
        ++ [Event.leave t (b.boardInit f t p).1]
        ++ Board.run b f rest (b.boardInit f t p).2
  | .initSerial :: rest, p => Event.initSerial :: Board.run b f rest p

/-- Start-up in execution order from platform state `p`: the calls logged by
static initialisation of the translation unit, then the steps of the caller
run from the state static initialisation leaves. -/
def Board.programOrder (b : Board) (f : BuildFlags) (steps : List CallerStep)
    (p : Platform) : List Event :=
  (callsSince p (b.staticInitialization f p)).map Event.call
    ++ b.run f steps (b.staticInitialization f p)

/-- The calling order prescribed in the comment at the head of `boardInit`:
"Hardware: must be called at start of setup() before anything else;
PostInitSerial: must be called after initSerial() before other
initializations". -/
def documentedSetup (f : BuildFlags) : List CallerStep :=
  [CallerStep.boardInit .Hardware]
    ++ (if f.USE_SERIAL then [CallerStep.initSerial] else [])
    ++ [CallerStep.boardInit .PostInitSerial]

/-- Entry into the Hardware phase. -/
def Event.isHardwareEntry : Event → Bool
  | .enter .Hardware => true
  | _ => false

/-- Return from the Hardware phase. -/
def Event.isHardwareReturn : Event → Bool
  | .leave .Hardware _ => true
  | _ => false

/-- Construction of the indicator or the display object. -/
def Event.isPeripheralConstruction : Event → Bool
  | .call c => c.isPeripheralConstruction
  | _ => false

/-- The events that precede the first entry into the Hardware phase. -/
def beforeHardware (trace : List Event) : List Event :=
  trace.takeWhile (fun e => !e.isHardwareEntry)

/-- The events that precede the first return from the Hardware phase. -/
def beforeHardwareCompleted (trace : List Event) : List Event :=
  trace.takeWhile (fun e => !e.isHardwareReturn)

/-- The events from the first entry into the Hardware phase onwards. -/
def fromHardware (trace : List Event) : List Event :=
  trace.dropWhile (fun e => !e.isHardwareEntry)

/-- All four flags set. -/
def allFeatures : BuildFlags :=
  { USE_SERIAL := true, USE_LED := true, USE_DISPLAY := true, MCCI_LMIC := true }

/-- A build with serial, indicator and MCCI LMIC but without the display. -/
def noDisplay : BuildFlags :=
  { USE_SERIAL := true, USE_LED := true, USE_DISPLAY := false, MCCI_LMIC := true }

/-! ## Auxiliary facts -/

theorem callsSince_append (p q : Platform) (cs : List PlatformCall)
    (h : q.calls = p.calls ++ cs) : callsSince p q = cs := by
  simp [callsSince, h]

theorem heltec_hardware_display (s l m : Bool) (p : Platform) :
    heltec_wireless_stick_lite.boardInit ⟨s, l, true, m⟩ .Hardware p
      = (true, { p with wireSda := 4, wireScl := 15,
                        calls := p.calls ++ [.Wire_begin 4 15] }) := rfl

theorem heltec_hardware_noDisplay (s l m : Bool) (p : Platform) :
    heltec_wireless_stick_lite.boardInit ⟨s, l, false, m⟩ .Hardware p = (true, p) := rfl

theorem teensy_hardware (f : BuildFlags) (p : Platform) :
    teensylc.boardInit f .Hardware p
      = (true, { p with spiSck := 14, calls := p.calls ++ [.SPI_setSCK 14] }) := rfl

theorem callsSince_self (p : Platform) : callsSince p p = [] :=
  callsSince_append p p [] (by simp)

theorem callsSince_heltec_display (s l m : Bool) (p : Platform) :
    callsSince p (heltec_wireless_stick_lite.boardInit ⟨s, l, true, m⟩ .Hardware p).2
      = [PlatformCall.Wire_begin 4 15] :=
  callsSince_append _ _ _ rfl

theorem callsSince_teensy (f : BuildFlags) (p : Platform) :
    callsSince p (teensylc.boardInit f .Hardware p).2 = [PlatformCall.SPI_setSCK 14] :=
  callsSince_append _ _ _ rfl

theorem boardInit_success (b : Board) (f : BuildFlags) (t : InitType) (p : Platform) :
    (b.boardInit f t p).1 = true := by
  obtain ⟨s, l, d, m⟩ := f
  cases b <;> cases t <;> cases d <;> rfl

theorem callsSince_boardInit (b : Board) (f : BuildFlags) (t : InitType) (p : Platform) :
    callsSince p (b.boardInit f t p).2
      = (match b, t with
         | .heltec_wireless_stick_lite, .Hardware =>
             if f.USE_DISPLAY then [PlatformCall.Wire_begin 4 15] else []
         | .teensylc, .Hardware => [PlatformCall.SPI_setSCK 14]
         | _, .PostInitSerial => []) := by
  obtain ⟨s, l, d, m⟩ := f
  cases b <;> cases t
  · cases d
    · exact callsSince_self p
    · exact callsSince_heltec_display s l m p
  · exact callsSince_self p
  · exact callsSince_teensy ⟨s, l, d, m⟩ p
  · exact callsSince_self p

theorem boardInit_constructs_nothing (b : Board) (f : BuildFlags) (t : InitType)
    (p : Platform) :
    ((callsSince p (b.boardInit f t p).2).map Event.call).any
      Event.isPeripheralConstruction = false := by
  rw [callsSince_boardInit]
  obtain ⟨s, l, d, m⟩ := f
  cases b <;> cases t <;> cases d <;> rfl

theorem callsSince_staticInitialization (b : Board) (f : BuildFlags) (p : Platform) :
    callsSince p (b.staticInitialization f p)
      = (b.led f).toList.map PlatformCall.EasyLed_construct
        ++ (b.display f).toList.map PlatformCall.U8X8_construct :=
  callsSince_append _ _ _ rfl

theorem run_constructs_nothing (b : Board) (f : BuildFlags) (steps : List CallerStep) :
    ∀ p : Platform, (b.run f steps p).any Event.isPeripheralConstruction = false := by
  induction steps with
  | nil => intro p; rfl
  | cons st rest ih =>
    intro p
    cases st with
    | boardInit t =>
      simp only [Board.run, List.any_append, boardInit_constructs_nothing, ih]
      rfl
    | initSerial =>
      simp only [Board.run, List.any_cons, ih]
      rfl

theorem any_dropWhile_false (q r : Event → Bool) (l : List Event)
    (h : l.any r = false) : (l.dropWhile q).any r = false := by
  induction l with
  | nil => rfl
  | cons a t ih =>
    simp only [List.any_cons, Bool.or_eq_false_iff] at h
    by_cases hq : q a = true
    · rw [List.dropWhile_cons_of_pos hq]; exact ih h.2
    · rw [List.dropWhile_cons_of_neg hq]
      simp only [List.any_cons, Bool.or_eq_false_iff]; exact h

theorem fromHardware_programOrder (b : Board) (f : BuildFlags) (steps : List CallerStep)
    (p : Platform) :
    fromHardware (b.programOrder f steps p)
      = fromHardware (b.run f steps (b.staticInitialization f p)) := by
  rw [Board.programOrder, callsSince_staticInitialization]
  obtain ⟨fs, fl, fd, fm⟩ := f
  cases b <;> cases fl <;> cases fd <;> rfl

/-! ## The initialization sequencer -/

/-- C1: on both boards, for either phase, for every combination of the build
flags and from every platform state (whatever status the two-wire bus layer
reports), `boardInit` returns true. -/
theorem boardInit_returns_true (b : Board) (f : BuildFlags) (t : InitType) (p : Platform) :
    (b.boardInit f t p).1 = true := by
  obtain ⟨s, l, d, m⟩ := f
  cases b <;> cases t <;> cases d <;> rfl

/-- C2: on the Heltec Wireless Stick Lite built with the display, the Hardware
phase makes exactly the call `Wire.begin(4, 15)`; afterwards the two-wire bus is
on data line 4 and clock line 15, the pins the `display` object declares, and
not on the BSP defaults 21/22; the data line is not GPIO21, the pin of Vext. -/
theorem heltec_hardware_puts_wire_on_display_pins (s l m : Bool) (p : Platform) :
    callsSince p (heltec_wireless_stick_lite.boardInit ⟨s, l, true, m⟩ .Hardware p).2
        = [PlatformCall.Wire_begin 4 15]
    ∧ (heltec_wireless_stick_lite.boardInit ⟨s, l, true, m⟩ .Hardware p).2.wireSda = 4
    ∧ (heltec_wireless_stick_lite.boardInit ⟨s, l, true, m⟩ .Hardware p).2.wireScl = 15
    ∧ heltec_wireless_stick_lite.display ⟨s, l, true, m⟩
        = some { reset := none, clock := 15, data := 4 }
    ∧ Board.displayOnWire .heltec_wireless_stick_lite ⟨s, l, true, m⟩
        (heltec_wireless_stick_lite.boardInit ⟨s, l, true, m⟩ .Hardware p).2 = true
    ∧ heltec_wireless_stick_lite.SDA = 21 ∧ heltec_wireless_stick_lite.SCL = 22
    ∧ (heltec_wireless_stick_lite.boardInit ⟨s, l, true, m⟩ .Hardware p).2.wireSda
        ≠ heltec_wireless_stick_lite.SDA
    ∧ (heltec_wireless_stick_lite.boardInit ⟨s, l, true, m⟩ .Hardware p).2.wireScl
        ≠ heltec_wireless_stick_lite.SCL
    ∧ heltec_wireless_stick_lite.Vext = 21
    ∧ (heltec_wireless_stick_lite.boardInit ⟨s, l, true, m⟩ .Hardware p).2.wireSda
        ≠ heltec_wireless_stick_lite.Vext := by
  refine ⟨callsSince_heltec_display s l m p, rfl, rfl, rfl, ?_, rfl, rfl, ?_, ?_, rfl, ?_⟩
    <;> rw [heltec_hardware_display]
  · simp [Board.displayOnWire, Board.display, heltec_wireless_stick_lite.display]
  · simp [heltec_wireless_stick_lite.SDA]
  · simp [heltec_wireless_stick_lite.SCL]
  · simp [heltec_wireless_stick_lite.Vext]

/-- C3: on the Teensy LC, for every combination of the build flags, the
Hardware phase makes exactly one call, `SPI.setSCK(14)`; the indicator pin is
LED_BUILTIN = 13, which differs from 14, so afterwards the SPI clock is on
pin 14 and not on the pin of the indicator (declared or not). -/
theorem teensy_hardware_moves_sck_to_14 (f : BuildFlags) (p : Platform) :
    callsSince p (teensylc.boardInit f .Hardware p).2 = [PlatformCall.SPI_setSCK 14]
    ∧ (callsSince p (teensylc.boardInit f .Hardware p).2).length = 1
    ∧ (teensylc.boardInit f .Hardware p).2.spiSck = 14
    ∧ teensylc.LED_BUILTIN = 13
    ∧ (teensylc.boardInit f .Hardware p).2.spiSck ≠ teensylc.LED_BUILTIN
    ∧ (teensylc.led f).map EasyLed.pin
        ≠ some (teensylc.boardInit f .Hardware p).2.spiSck := by
  refine ⟨callsSince_teensy f p, by rw [callsSince_teensy]; rfl, rfl, rfl, ?_, ?_⟩
    <;> rw [teensy_hardware]
  · simp [teensylc.LED_BUILTIN]
  · obtain ⟨s, l, d, m⟩ := f
    cases l <;> simp [teensylc.led, teensylc.LED_BUILTIN]

/-- C8: on both boards and for every combination of the build flags, the
Hardware phase writes nothing to the host channel and makes no call on it: the
calls it adds are bus configuration only, namely `Wire.begin(4, 15)` or nothing
on the Heltec and `SPI.setSCK(14)` on the Teensy. -/
theorem hardware_phase_touches_only_buses (b : Board) (f : BuildFlags) (p : Platform) :
    (b.boardInit f .Hardware p).2.serialOut = p.serialOut
    ∧ (callsSince p (b.boardInit f .Hardware p).2).all PlatformCall.isBusConfiguration = true
    ∧ (callsSince p (b.boardInit f .Hardware p).2).any PlatformCall.usesHostChannel = false
    ∧ callsSince p (b.boardInit f .Hardware p).2
        = (match b with
           | .heltec_wireless_stick_lite =>
               if f.USE_DISPLAY then [PlatformCall.Wire_begin 4 15] else []
           | .teensylc => [PlatformCall.SPI_setSCK 14]) := by
  obtain ⟨s, l, d, m⟩ := f
  cases b
  · cases d
    · refine ⟨rfl, ?_, ?_, ?_⟩ <;>
        simp only [Board.boardInit, heltec_hardware_noDisplay, callsSince_self] <;> rfl
    · refine ⟨rfl, ?_, ?_, ?_⟩ <;>
        simp only [Board.boardInit, callsSince_heltec_display] <;> rfl
  · refine ⟨rfl, ?_, ?_, ?_⟩ <;>
      simp only [Board.boardInit, callsSince_teensy] <;> rfl

/-- C10: on both boards and for every combination of the build flags, the
PostInitSerial phase returns true and hands back the platform state it was
given, call log included: no platform call, no change of the two-wire pins, the
SPI clock pin or the host channel. -/
theorem postInitSerial_is_a_no_op (b : Board) (f : BuildFlags) (p : Platform) :
    b.boardInit f .PostInitSerial p = (true, p)
    ∧ callsSince p (b.boardInit f .PostInitSerial p).2 = [] := by
  have h : b.boardInit f .PostInitSerial p = (true, p) := by cases b <;> rfl
  rw [h]
  exact ⟨rfl, callsSince_self p⟩

/-! ## The pin and feature descriptors -/

/-- C4: in both pin maps the radio lines that are not wired carry the symbol
`LMIC_UNUSED_PIN`, never a pin number: on the Teensy LC `rxtx` and `dio2` are
the sentinel while dio0 = 8 and dio1 = 7; on the Heltec `rxtx` is the sentinel
and dio0, dio1, dio2 are 26, 35, 34; no field of either map is pin 0; and on
both boards dio0 is a literal pin. -/
theorem unused_radio_lines_are_the_sentinel (f : BuildFlags) :
    (teensylc.lmic_pins f).rxtx = PinValue.LMIC_UNUSED_PIN
    ∧ (teensylc.lmic_pins f).dio = [PinValue.pin 8, PinValue.pin 7, PinValue.LMIC_UNUSED_PIN]
    ∧ (heltec_wireless_stick_lite.lmic_pins f).rxtx = PinValue.LMIC_UNUSED_PIN
    ∧ (heltec_wireless_stick_lite.lmic_pins f).dio
        = [PinValue.pin 26, PinValue.pin 35, PinValue.pin 34]
    ∧ (teensylc.lmic_pins f).rxtx.concrete? = none
    ∧ (teensylc.lmic_pins f).dio.map PinValue.concrete? = [some 8, some 7, none]
    ∧ (heltec_wireless_stick_lite.lmic_pins f).rxtx.concrete? = none
    ∧ (heltec_wireless_stick_lite.lmic_pins f).dio.map PinValue.concrete?
        = [some 26, some 35, some 34]
    ∧ (∀ b : Board, PinValue.pin 0 ∉
        [(b.lmic_pins f).nss, (b.lmic_pins f).rxtx, (b.lmic_pins f).rst] ++ (b.lmic_pins f).dio)
    ∧ (∀ b : Board, 0 ∉ (b.lmic_pins f).concretePins)
    ∧ (∀ b : Board, (b.lmic_pins f).dio.length = 3)
    ∧ (∀ b : Board, ((b.lmic_pins f).dio.head?.bind PinValue.concrete?).isSome = true) := by
  refine ⟨rfl, rfl, rfl, rfl, rfl, rfl, rfl, rfl, ?_, ?_, ?_, ?_⟩ <;>
    intro b <;> cases b <;>
    simp [Board.lmic_pins, heltec_wireless_stick_lite.lmic_pins, teensylc.lmic_pins,
      lmic_pinmap.concretePins, PinValue.concrete?]

/-- C6: on the Heltec Wireless Stick Lite built without the display, the
Hardware phase returns true and hands back the platform state unchanged (no
call on the two-wire bus or anything else); the radio pin map has nss = 18; and
the indicator, which is declared exactly when `USE_LED` is set, is declared
with pin 25 and active level High. -/
theorem heltec_without_display_scenario (s l m : Bool) (p : Platform) :
    heltec_wireless_stick_lite.boardInit ⟨s, l, false, m⟩ .Hardware p = (true, p)
    ∧ callsSince p (heltec_wireless_stick_lite.boardInit ⟨s, l, false, m⟩ .Hardware p).2 = []
    ∧ heltec_wireless_stick_lite.display ⟨s, l, false, m⟩ = none
    ∧ (heltec_wireless_stick_lite.lmic_pins ⟨s, l, false, m⟩).nss = PinValue.pin 18
    ∧ heltec_wireless_stick_lite.led ⟨s, true, false, m⟩
        = some { pin := 25, activeLevel := ActiveLevel.High }
    ∧ heltec_wireless_stick_lite.led ⟨s, l, false, m⟩
        = (if l then some { pin := 25, activeLevel := ActiveLevel.High } else none) := by
  refine ⟨rfl, ?_, rfl, rfl, rfl, rfl⟩
  rw [heltec_hardware_noDisplay]
  exact callsSince_self p

/-- C5, as stated, fails on the Heltec built without the display: the Hardware
phase makes no call, so the two-wire data line is still on GPIO21, the pin of
Vext; it is not true that on every board and in every build the Hardware phase
takes the bus line off the contended pin. -/
theorem heltec_noDisplay_sda_remains_on_vext :
    callsSince (Board.resetState .heltec_wireless_stick_lite true)
        (Board.afterHardware .heltec_wireless_stick_lite noDisplay true) = []
    ∧ (Board.afterHardware .heltec_wireless_stick_lite noDisplay true).wireSda
        = heltec_wireless_stick_lite.Vext
    ∧ (Board.afterHardware .heltec_wireless_stick_lite noDisplay true).wireSda
        = Board.documentedContention .heltec_wireless_stick_lite
    ∧ ¬ (∀ (b : Board) (f : BuildFlags) (s : Bool),
          (b.afterHardware f s).wireSda ≠ b.documentedContention
          ∧ (b.afterHardware f s).spiSck ≠ b.documentedContention) := by
  refine ⟨by decide, by decide, by decide, ?_⟩
  intro h
  exact (h .heltec_wireless_stick_lite noDisplay true).1 (by decide)

/-- C5, amended: for both boards and every combination of the build flags, the
pins claimed after the Hardware phase (literal radio pins, indicator pin when
declared, two-wire bus lines, SPI lines) are pairwise distinct, and the display,
when declared, names exactly the two-wire lines then in effect.  At reset the
only pin with two claims is the documented one (Heltec GPIO21: Vext and BSP SDA;
Teensy pin 13: LED and BSP SCK).  On the Teensy the Hardware phase always moves the
SPI clock from 13 to 14; on the Heltec the Hardware phase moves the two-wire data
line from 21 to 4 exactly when the display is enabled (its one call is then
`Wire.begin(4, 15)`), and otherwise makes no call and leaves it on 21, so GPIO21
then keeps both claims. -/
theorem pins_distinct_and_contention_resolution (b : Board) (f : BuildFlags) (s : Bool) :
    (b.claimedPins f (b.afterHardware f s)).Nodup
    ∧ b.displayOnWire f (b.afterHardware f s) = true
    ∧ sharedPins (b.claimedPins f (b.resetState s) ++ b.otherFunctions)
        = (match b with
           | .heltec_wireless_stick_lite => [21]
           | .teensylc => if f.USE_LED then [13] else [])
    ∧ sharedPins (b.claimedPins f (b.afterHardware f s) ++ b.otherFunctions)
        = (match b with
           | .heltec_wireless_stick_lite => if f.USE_DISPLAY then [] else [21]
           | .teensylc => [])
    ∧ (Board.resetState .teensylc s).spiSck = teensylc.LED_BUILTIN
    ∧ (Board.afterHardware .teensylc f s).spiSck = 14
    ∧ (Board.resetState .heltec_wireless_stick_lite s).wireSda = heltec_wireless_stick_lite.Vext
    ∧ (Board.afterHardware .heltec_wireless_stick_lite f s).wireSda
        = (if f.USE_DISPLAY then 4 else 21)
    ∧ callsSince (Board.resetState .heltec_wireless_stick_lite s)
        (Board.afterHardware .heltec_wireless_stick_lite f s)
        = (if f.USE_DISPLAY then [PlatformCall.Wire_begin 4 15] else [])
    ∧ callsSince (Board.resetState .teensylc s) (Board.afterHardware .teensylc f s)
        = [PlatformCall.SPI_setSCK 14] := by
  obtain ⟨fs, fl, fd, fm⟩ := f
  cases b <;> cases fs <;> cases fl <;> cases fd <;> cases fm <;> cases s <;> decide

/-- C7, as stated, fails: the board whose display is on the two-wire pins 4/15
is the Heltec Wireless Stick Lite (the display of the Teensy is on 18/19), and its
indicator is on pin 25, not 13; no board file declares both a display on 4/15
and an indicator on pin 13. -/
theorem no_board_has_display_on_4_15_and_led_on_13 :
    (heltec_wireless_stick_lite.display allFeatures).map (fun d => (d.data, d.clock))
        = some (4, 15)
    ∧ (teensylc.display allFeatures).map (fun d => (d.data, d.clock)) = some (18, 19)
    ∧ (heltec_wireless_stick_lite.led allFeatures).map EasyLed.pin = some 25
    ∧ ¬ ((heltec_wireless_stick_lite.led allFeatures).map EasyLed.pin = some 13)
    ∧ ¬ (∃ (b : Board) (f : BuildFlags),
          (b.display f).map (fun d => (d.data, d.clock)) = some (4, 15)
          ∧ (b.led f).map EasyLed.pin = some 13) := by
  refine ⟨by decide, by decide, by decide, by decide, ?_⟩
  rintro ⟨b, ⟨fs, fl, fd, fm⟩, hd, hl⟩
  cases b
  · cases fl <;>
      simp [Board.led, heltec_wireless_stick_lite.led] at hl
  · cases fd <;>
      simp [Board.display, teensylc.display, teensylc.SDA, teensylc.SCL] at hd

/-- C7, amended: the board whose display is wired to the non-default two-wire
pins 4/15 is the Heltec Wireless Stick Lite; its indicator is on pin 25 (not
13), a pin no bus line occupies after the Hardware phase; with the display
enabled its Hardware phase makes the call `Wire.begin(4, 15)`, leaves the
two-wire bus on 4/15 and returns true.  Pin 13 is the indicator of the Teensy LC,
which does share its pin with the default SPI clock. -/
theorem heltec_display_scenario (s l m : Bool) (p : Platform) :
    heltec_wireless_stick_lite.display ⟨s, l, true, m⟩
        = some { reset := none, clock := 15, data := 4 }
    ∧ heltec_wireless_stick_lite.led ⟨s, true, true, m⟩
        = some { pin := 25, activeLevel := ActiveLevel.High }
    ∧ heltec_wireless_stick_lite.LED_BUILTIN = 25
    ∧ 25 ∉ [(heltec_wireless_stick_lite.boardInit ⟨s, l, true, m⟩ .Hardware p).2.wireSda,
            (heltec_wireless_stick_lite.boardInit ⟨s, l, true, m⟩ .Hardware p).2.wireScl,
            heltec_wireless_stick_lite.MOSI, heltec_wireless_stick_lite.MISO,
            heltec_wireless_stick_lite.SCK]
    ∧ (heltec_wireless_stick_lite.boardInit ⟨s, l, true, m⟩ .Hardware p).1 = true
    ∧ callsSince p (heltec_wireless_stick_lite.boardInit ⟨s, l, true, m⟩ .Hardware p).2
        = [PlatformCall.Wire_begin 4 15]
    ∧ ((heltec_wireless_stick_lite.boardInit ⟨s, l, true, m⟩ .Hardware p).2.wireSda,
        (heltec_wireless_stick_lite.boardInit ⟨s, l, true, m⟩ .Hardware p).2.wireScl) = (4, 15)
    ∧ (teensylc.led ⟨s, true, true, m⟩).map EasyLed.pin = some 13
    ∧ teensylc.SCK_default = 13 := by
  refine ⟨rfl, rfl, rfl, ?_, rfl, callsSince_heltec_display s l m p, rfl, rfl, rfl⟩
  rw [heltec_hardware_display]
  simp [heltec_wireless_stick_lite.MOSI, heltec_wireless_stick_lite.MISO,
    heltec_wireless_stick_lite.SCK]

/-! ## Construction of the peripheral objects against the Hardware phase -/

/-- C9, as stated, fails: with the indicator and the display enabled, the
constructors of `led` and `display` run during static initialisation, that is
before the first step of the caller, `boardInit(Hardware)`, is entered, let
alone completed; this holds for both board files. -/
theorem peripherals_constructed_before_hardware :
    Board.programOrder .heltec_wireless_stick_lite allFeatures
        (documentedSetup allFeatures) (Board.resetState .heltec_wireless_stick_lite true)
      = [Event.call (.EasyLed_construct { pin := 25, activeLevel := .High }),
         Event.call (.U8X8_construct { reset := none, clock := 15, data := 4 }),
         Event.enter .Hardware,
         Event.call (.Wire_begin 4 15),
         Event.leave .Hardware true,
         Event.initSerial,
         Event.enter .PostInitSerial,
         Event.leave .PostInitSerial true]
    ∧ beforeHardware (Board.programOrder .heltec_wireless_stick_lite allFeatures
        (documentedSetup allFeatures) (Board.resetState .heltec_wireless_stick_lite true))
      = [Event.call (.EasyLed_construct { pin := 25, activeLevel := .High }),
         Event.call (.U8X8_construct { reset := none, clock := 15, data := 4 })]
    ∧ (beforeHardwareCompleted (Board.programOrder .heltec_wireless_stick_lite allFeatures
        (documentedSetup allFeatures)
        (Board.resetState .heltec_wireless_stick_lite true))).any
          Event.isPeripheralConstruction = true
    ∧ beforeHardware (Board.programOrder .teensylc allFeatures
        (documentedSetup allFeatures) (Board.resetState .teensylc true))
      = [Event.call (.EasyLed_construct { pin := 13, activeLevel := .High }),
         Event.call (.U8X8_construct { reset := none, clock := 19, data := 18 })]
    ∧ (beforeHardwareCompleted (Board.programOrder .teensylc allFeatures
        (documentedSetup allFeatures) (Board.resetState .teensylc true))).any
          Event.isPeripheralConstruction = true := by
  decide

/-- C9, amended: in each board file the objects `led` and `display` are
namespace-scope definitions whose constructors run during static
initialisation, hence before `boardInit(Hardware)` is entered.  With the
documented calling order the whole start-up is, from any platform state: the
constructor of `led` (when USE_LED; pin 25 on the Heltec, 13 on the Teensy,
active High), the constructor of `display` (when USE_DISPLAY; scl/sda 15/4 on
the Heltec, 19/18 on the Teensy), then the Hardware phase, whose only call is
`Wire.begin(4, 15)` on the Heltec with the display (none without) and
`SPI.setSCK(14)` on the Teensy, returning true, then the channel bring-up when
USE_SERIAL, then the PostInitSerial phase, which makes no call and returns
true.  In whatever order the caller invokes it, `boardInit` makes no
constructor call, so no indicator or display object is constructed from the
Hardware phase onwards. -/
theorem peripheral_construction_precedes_boardInit (b : Board) (f : BuildFlags)
    (steps : List CallerStep) (p : Platform) :
    b.programOrder f (documentedSetup f) p
      = (if f.USE_LED then
            [Event.call (.EasyLed_construct
              (match b with
               | .heltec_wireless_stick_lite => { pin := 25, activeLevel := .High }
               | .teensylc => { pin := 13, activeLevel := .High }))]
          else [])
        ++ (if f.USE_DISPLAY then
            [Event.call (.U8X8_construct
              (match b with
               | .heltec_wireless_stick_lite => { reset := none, clock := 15, data := 4 }
               | .teensylc => { reset := none, clock := 19, data := 18 }))]
          else [])
        ++ [Event.enter .Hardware]
        ++ (match b with
            | .heltec_wireless_stick_lite =>
                if f.USE_DISPLAY then [Event.call (.Wire_begin 4 15)] else []
            | .teensylc => [Event.call (.SPI_setSCK 14)])
        ++ [Event.leave .Hardware true]
        ++ (if f.USE_SERIAL then [Event.initSerial] else [])
        ++ [Event.enter .PostInitSerial, Event.leave .PostInitSerial true]
    ∧ ((callsSince p (b.boardInit f .Hardware p).2).map Event.call).any
        Event.isPeripheralConstruction = false
    ∧ ((callsSince p (b.boardInit f .PostInitSerial p).2).map Event.call).any
        Event.isPeripheralConstruction = false
    ∧ (b.run f steps p).any Event.isPeripheralConstruction = false
    ∧ (fromHardware (b.programOrder f steps p)).any Event.isPeripheralConstruction = false
    ∧ (b.programOrder f steps p).filter Event.isPeripheralConstruction
        = (callsSince p (b.staticInitialization f p)).map Event.call
    ∧ beforeHardware (b.programOrder f (documentedSetup f) p)
        = (callsSince p (b.staticInitialization f p)).map Event.call := by
  have hrun : ∀ q, (b.run f steps q).any Event.isPeripheralConstruction = false :=
    run_constructs_nothing b f steps
  have hfilter : ∀ q, (b.run f steps q).filter Event.isPeripheralConstruction = [] := by
    intro q
    rw [List.filter_eq_nil_iff]
    intro e he
    have := List.any_eq_false.mp (hrun q) e he
    simpa using this
  have htrace : b.programOrder f (documentedSetup f) p
      = (callsSince p (b.staticInitialization f p)).map Event.call
        ++ ([Event.enter .Hardware]
        ++ (match b with
            | .heltec_wireless_stick_lite =>
                if f.USE_DISPLAY then [Event.call (.Wire_begin 4 15)] else []
            | .teensylc => [Event.call (.SPI_setSCK 14)])
        ++ [Event.leave .Hardware true]
        ++ (if f.USE_SERIAL then [Event.initSerial] else [])
        ++ [Event.enter .PostInitSerial, Event.leave .PostInitSerial true]) := by
    obtain ⟨fs, fl, fd, fm⟩ := f
    cases b <;> cases fs <;> cases fd <;>
      simp [Board.programOrder, documentedSetup, Board.run, callsSince_boardInit,
        boardInit_success]
  refine ⟨?_, boardInit_constructs_nothing b f .Hardware p,
    boardInit_constructs_nothing b f .PostInitSerial p, hrun p, ?_, ?_, ?_⟩
  · rw [htrace, callsSince_staticInitialization]
    obtain ⟨fs, fl, fd, fm⟩ := f
    cases b <;> cases fs <;> cases fl <;> cases fd <;> rfl
  · rw [fromHardware_programOrder]
    exact any_dropWhile_false _ _ _ (hrun _)
  · rw [Board.programOrder, List.filter_append, hfilter, List.append_nil,
      callsSince_staticInitialization]
    obtain ⟨fs, fl, fd, fm⟩ := f
    cases b <;> cases fl <;> cases fd <;> rfl
  · rw [htrace, callsSince_staticInitialization]
    obtain ⟨fs, fl, fd, fm⟩ := f
    cases b <;> cases fs <;> cases fl <;> cases fd <;> rfl

end LMICNode
